import Mathlib

/-!
# kk-alert: verification of the rule evaluation and alert lifecycle engine

Shallow embedding of the core of the kk-alert backend (Go) in Lean 4:
the fingerprint function (`internal/dedup`), the scheduler's threshold
grading and per-series state machine (`internal/scheduler`), the
notification engine's gates and dispatch loops (`internal/engine`), the
webhook ingress upsert (`internal/inbound`), and the Lark token-bucket
rate limiter (`internal/sender`).

Modelling conventions:
* time instants and durations are whole seconds (`Int`); numeric sample
  values and rate-limiter token counts are rationals (`ℚ`, standing in
  for Go `float64` in the order-theoretic comparisons the code performs);
* Go `map[string]string` values are association lists
  `List (String × String)` with `lookupLabel` returning `""` for a
  missing key, exactly as a Go map read does;
* external library calls (`time.ParseDuration`, `encoding/json`
  unmarshalling, `crypto/sha256`) are passed in as function parameters:
  every theorem quantifies over them, so it holds in particular for the
  real library functions;
* database tables are passed in as values (`List SendRecord`, lookup
  functions) and writes are returned as new values; the happy path (no
  I/O error) is modelled.
-/

namespace KKAlert

/-- Go map read `labels[k]`: value of the first pair with key `k`, or `""`. -/
def lookupLabel (labels : List (String × String)) (k : String) : String :=
  match labels.find? (fun p => p.1 = k) with
  | some p => p.2
  | none => ""

/-! ## Fingerprint (dedup.Key / dedup.KeyForSeriesWithRule)

The Go code sorts the label keys, rebuilds the map in sorted order,
serializes it with `encoding/json` (object keys in that sorted order),
concatenates the `|`-separated payload and hashes it with
`crypto/sha256` + lowercase hex. The hash+hex step is an external
library call, modelled as the parameter `hash`; the payload
construction is modelled concretely. -/

/-- Lowercase hex digit, for the `\u00XX` escapes of `encoding/json`. -/
def hexDigit (n : Nat) : String :=
  String.singleton (if n < 10 then Char.ofNat (48 + n) else Char.ofNat (87 + n))

/-- Escaping of one character inside an `encoding/json` string literal. -/
def jsonEscapeChar (c : Char) : String :=
  if c = Char.ofNat 34 then "\\\""
  else if c = Char.ofNat 92 then "\\\\"
  else if c = Char.ofNat 10 then "\\n"
  else if c = Char.ofNat 13 then "\\r"
  else if c = Char.ofNat 9 then "\\t"
  else if c = Char.ofNat 60 then "\\u003c"
  else if c = Char.ofNat 62 then "\\u003e"
  else if c = Char.ofNat 38 then "\\u0026"
  else if c.toNat < 32 then "\\u00" ++ hexDigit (c.toNat / 16) ++ hexDigit (c.toNat % 16)
  else String.singleton c

/-- Quoting of a string value as `encoding/json` does. -/
def jsonQuote (s : String) : String :=
  "\"" ++ String.join (s.toList.map jsonEscapeChar) ++ "\""

/-- The canonical serialization `json.Marshal(labelsSorted)` built by the Go
fingerprint functions: a JSON object whose keys appear in lexicographically
sorted order. -/
def canonicalLabelsJSON (labels : List (String × String)) : String :=
  let keys := (labels.map Prod.fst).mergeSort (fun a b => decide (a ≤ b))
  "\x7b" ++
    String.intercalate ","
      (keys.map (fun k => jsonQuote k ++ ":" ++ jsonQuote (lookupLabel labels k))) ++
    "\x7d"

/-- The byte string hashed by `dedup.KeyForSeriesWithRule`:
`sourceID | ruleID | title | canonicalJSON(labels)` with the
`| resultIndex` suffix exactly when `resultIndex >= 0` and both
`labels["instance"]` and `labels["job"]` are empty. -/
def keyPayloadWithRule (sourceID ruleID : Nat) (title : String)
    (labels : List (String × String)) (resultIndex : Int) : String :=
  let base := toString sourceID ++ "|" ++ toString ruleID ++ "|" ++ title ++ "|" ++
    canonicalLabelsJSON labels
  if resultIndex ≥ 0 ∧ lookupLabel labels "instance" = "" ∧
      lookupLabel labels "job" = "" then
    base ++ "|" ++ toString resultIndex
  else base

/-- Go `dedup.KeyForSeriesWithRule`: hex SHA-256 digest (the parameter
`hash` models `sha256.Sum256` + `hex.EncodeToString`) of the canonical
payload. -/
def KeyForSeriesWithRule (hash : String → String) (sourceID ruleID : Nat)
    (title : String) (labels : List (String × String)) (resultIndex : Int) : String :=
  hash (keyPayloadWithRule sourceID ruleID title labels resultIndex)

/-- The byte string hashed by `dedup.keyWithDisambiguator` (no rule id). -/
def keyPayload (sourceID : Nat) (title : String)
    (labels : List (String × String)) (resultIndex : Int) : String :=
  let base := toString sourceID ++ "|" ++ title ++ "|" ++ canonicalLabelsJSON labels
  if resultIndex ≥ 0 ∧ lookupLabel labels "instance" = "" ∧
      lookupLabel labels "job" = "" then
    base ++ "|" ++ toString resultIndex
  else base

/-- Go `dedup.Key`: the webhook-ingress three-argument fingerprint,
`keyWithDisambiguator` at `resultIndex = -1`. -/
def Key (hash : String → String) (sourceID : Nat) (title : String)
    (labels : List (String × String)) : String :=
  hash (keyPayload sourceID title labels (-1))

/-! ## Threshold levels (scheduler.ParseThresholds / scheduler.MatchThreshold) -/

/-- One level of a multi-threshold rule (Go `scheduler.ThresholdLevel`). -/
structure ThresholdLevel where
  operator : String
  value : ℚ
  severity : String
  channelIds : List Nat
deriving DecidableEq

/-- One comparison of `MatchThreshold`'s `switch l.Operator`:
`>`, `>=`, `<`, `<=`, `==`, `!=`, any other operator falls to the
`default` arm which compares with `>`. -/
def opMatched (op : String) (v tv : ℚ) : Bool :=
  if op = ">" then decide (v > tv)
  else if op = ">=" then decide (v ≥ tv)
  else if op = "<" then decide (v < tv)
  else if op = "<=" then decide (v ≤ tv)
  else if op = "==" then decide (v = tv)
  else if op = "!=" then decide (v ≠ tv)
  else decide (v > tv)

/-- Go `scheduler.MatchThreshold`: evaluate `value` against the levels in
declared order, first match wins, `none` when no level matches. -/
def MatchThreshold (levels : List ThresholdLevel) (v : ℚ) : Option ThresholdLevel :=
  match levels with
  | [] => none
  | l :: ls => if opMatched l.operator v l.value then some l else MatchThreshold ls v

/-- Go `scheduler.ParseThresholds`: `nil` (here `none`) when the raw JSON
string is empty, `"[]"`, `"null"`, fails to unmarshal, or decodes to an
empty list; otherwise the decoded levels. `jsonParse` stands for
`encoding/json` unmarshalling into `[]ThresholdLevel`. -/
def ParseThresholds (jsonParse : String → Option (List ThresholdLevel))
    (raw : String) : Option (List ThresholdLevel) :=
  if raw = "" ∨ raw = "[]" ∨ raw = "null" then none
  else
    match jsonParse raw with
    | none => none
    | some levels => if levels = [] then none else some levels

/-! ## Alert rows and scheduler per-series state (scheduler.queryPrometheus)

`Alert` is the persisted alert row (`models.Alert`); labels and
annotations are carried as their serialized string form, exactly as the
row stores them. `SchedQueryResult` is the Go `scheduler.queryResult`
entry of the volatile per-rule state map. -/

structure Alert where
  id : String
  sourceId : Nat
  sourceType : String
  externalId : String
  title : String
  severity : String
  status : String
  firingAt : Int
  resolvedAt : Option Int
  labels : String
  annotations : String
deriving DecidableEq

structure SchedQueryResult where
  value : ℚ
  timestamp : Int
  alertId : String
  severity : String
  missCount : Nat
deriving DecidableEq

/-- Go `scheduler.resolveGracePeriod`: consecutive absences before resolving. -/
def resolveGracePeriod : Nat := 3

/-- Go `scheduler.roundValue`: `math.Round(v*100)/100`, rounding half away
from zero. -/
def goRound2 (v : ℚ) : ℚ :=
  (if 0 ≤ v * 100 then ((⌊v * 100 + 1 / 2⌋ : ℤ) : ℚ)
   else -((⌊-(v * 100) + 1 / 2⌋ : ℤ) : ℚ)) / 100

/-- The state update for a series present in the query results
(`queryPrometheus` loop body, happy path with no store error): re-process
when the rounded value changed or a stable alert is 60s stale — writing a
fresh entry with `missCount = 0` — otherwise reset a positive `missCount`
(series reappeared within the grace period) and leave the rest untouched.
`mintedAlertId` stands for the id obtained from the store lookup / fresh
UUID when the in-memory state carries none. -/
def observePresent (now : Int) (newValue : ℚ) (newSeverity mintedAlertId : String)
    (st : SchedQueryResult) : SchedQueryResult :=
  let valueChanged := goRound2 st.value ≠ goRound2 newValue
  let needsReprocess := ¬valueChanged ∧ st.alertId ≠ "" ∧ now - st.timestamp ≥ 60
  if valueChanged ∨ needsReprocess then
    { value := newValue, timestamp := now,
      alertId := if st.alertId ≠ "" then st.alertId else mintedAlertId,
      severity := newSeverity, missCount := 0 }
  else if st.missCount > 0 then { st with missCount := 0 }
  else st

/-- The resolution scan of `queryPrometheus` for one state entry: a key
still present is untouched; an absent key has its `missCount` incremented
and is retained below `resolveGracePeriod`; at the threshold the entry is
deleted and, when the store still holds a firing row for its alert id, that
row is resolved (`status = "resolved"`, `resolvedAt = now`) and returned
for hand-off to the notification engine. -/
def scanEntry (getAlert : String → Option Alert) (now : Int)
    (currentKeys : List String) (key : String) (st : SchedQueryResult) :
    Option SchedQueryResult × Option Alert :=
  if key ∈ currentKeys then (some st, none)
  else
    let st' : SchedQueryResult := { st with missCount := st.missCount + 1 }
    if st'.missCount < resolveGracePeriod then (some st', none)
    else if st'.alertId ≠ "" then
      match getAlert st'.alertId with
      | some a =>
        if a.status = "firing" then
          (none, some { a with status := "resolved", resolvedAt := some now })
        else (none, none)
      | none => (none, none)
    else (none, none)

/-- The full resolution scan over the per-rule state map (modelled as an
association list): new state plus the resolved alerts handed to the
engine. -/
def resolutionScan (getAlert : String → Option Alert) (now : Int)
    (currentKeys : List String) (state : List (String × SchedQueryResult)) :
    List (String × SchedQueryResult) × List Alert :=
  state.foldr
    (fun e acc =>
      let r := scanEntry getAlert now currentKeys e.1 e.2
      (match r.1 with
       | some st => (e.1, st) :: acc.1
       | none => acc.1,
       match r.2 with
       | some a => a :: acc.2
       | none => acc.2))
    ([], [])

/-! ## Notification engine (engine.ProcessAlert and helpers)

The send-record table is a list of `SendRecord` values; the channel
table is a lookup function (`none` models `db.First` failing); the
channel sender (`sender.Send`, an HTTP call with retries) is the oracle
`send : Channel → Bool → Option String` taking the channel and the
`isRecovery` flag and returning `none` on success or the error text;
`parseDur` models `time.ParseDuration` (seconds). -/

structure SendRecord where
  alertId : String
  channelId : Nat
  success : Bool
  errorMessage : String
  createdAt : Int
deriving DecidableEq

structure Channel where
  type : String
  config : String
  enabled : Bool
deriving DecidableEq

structure Rule where
  id : Nat
  duration : String
  sendInterval : String
  excludeWindows : String
  suppression : String
  recoveryNotify : Bool
  aggregationEnabled : Bool
  aggregateBy : String
  aggregateWindow : String
deriving DecidableEq

/-- Go `engine.durationSatisfied`: empty or `"0"` duration passes
immediately, an unparseable duration also passes (fail-open), otherwise
the alert must have been firing for at least the parsed duration. -/
def durationSatisfied (parseDur : String → Option Int) (r : Rule) (a : Alert)
    (now : Int) : Bool :=
  if r.duration = "" ∨ r.duration = "0" then true
  else
    match parseDur r.duration with
    | none => true
    | some d => decide (now - a.firingAt ≥ d)

/-- Go `engine.sendRateLimited`: with a non-empty, non-`"0"`, parseable
`sendInterval`, throttle exactly when a successful send record for
`(alertId, channelId)` exists with `createdAt > now - interval`; an
unparseable interval disables the limit (fail-open). -/
def sendRateLimited (parseDur : String → Option Int) (records : List SendRecord)
    (r : Rule) (now : Int) (alertId : String) (chId : Nat) : Bool :=
  if r.sendInterval = "" ∨ r.sendInterval = "0" then false
  else
    match parseDur r.sendInterval with
    | none => false
    | some d =>
      decide (0 < records.countP (fun rec =>
        decide (rec.alertId = alertId ∧ rec.channelId = chId ∧
          rec.success = true ∧ rec.createdAt > now - d)))

/-- Go `engine.recoveryAlreadySent`: a successful send record for
`(alertId, channelId)` within the last 2 minutes. -/
def recoveryAlreadySent (records : List SendRecord) (now : Int)
    (alertId : String) (chId : Nat) : Bool :=
  decide (0 < records.countP (fun rec =>
    decide (rec.alertId = alertId ∧ rec.channelId = chId ∧
      rec.success = true ∧ rec.createdAt > now - 120)))

/-- One iteration of the firing-path channel loop of `engine.ProcessAlert`
(also the aggregated dispatch loop, which appends identical records):
skip when rate-limited; append a failure record when the channel row is
missing or disabled; otherwise call the sender with `isRecovery = false`
and append a success record or a failure record with the error text.
Returns the new record list and whether the sender was invoked. -/
def dispatchChannel (parseDur : String → Option Int)
    (channels : Nat → Option Channel) (send : Channel → Bool → Option String)
    (r : Rule) (alertId : String) (now : Int)
    (records : List SendRecord) (chId : Nat) : List SendRecord × Bool :=
  if sendRateLimited parseDur records r now alertId chId then (records, false)
  else
    match channels chId with
    | none =>
      (records ++ [⟨alertId, chId, false, "channel not found or disabled", now⟩],
        false)
    | some ch =>
      if ch.enabled = false then
        (records ++ [⟨alertId, chId, false, "channel not found or disabled", now⟩],
          false)
      else
        match send ch false with
        | some errMsg => (records ++ [⟨alertId, chId, false, errMsg, now⟩], true)
        | none => (records ++ [⟨alertId, chId, true, "", now⟩], true)

/-- The firing-path channel loop over all channel ids. -/
def dispatchChannels (parseDur : String → Option Int)
    (channels : Nat → Option Channel) (send : Channel → Bool → Option String)
    (r : Rule) (alertId : String) (now : Int)
    (records : List SendRecord) (channelIDs : List Nat) : List SendRecord :=
  channelIDs.foldl
    (fun recs chId => (dispatchChannel parseDur channels send r alertId now recs chId).1)
    records

/-- One iteration of the recovery-branch channel loop of
`engine.ProcessAlert`: skip when a successful send record exists in the
last 2 minutes; skip (with no record) when the channel row is missing or
disabled; otherwise call the sender with `isRecovery = true` and append a
success record or a failure record with the error text. -/
def recoveryDispatchChannel (channels : Nat → Option Channel)
    (send : Channel → Bool → Option String) (alertId : String) (now : Int)
    (records : List SendRecord) (chId : Nat) : List SendRecord × Bool :=
  if recoveryAlreadySent records now alertId chId then (records, false)
  else
    match channels chId with
    | none => (records, false)
    | some ch =>
      if ch.enabled = false then (records, false)
      else
        match send ch true with
        | some errMsg => (records ++ [⟨alertId, chId, false, errMsg, now⟩], true)
        | none => (records ++ [⟨alertId, chId, true, "", now⟩], true)

/-- The aggregation-window dedup and dispatch tail of
`engine.sendAggregated`: parse `aggregateWindow` (default 5 minutes on
parse failure); skip when a last aggregated send instant is recorded and
`now - lastSent < window`; otherwise run the per-channel dispatch loop
and record `now` as the last aggregated send instant — unconditionally,
whatever the per-channel outcomes. The preceding candidate collection
(a store read that only shapes the message text) is not modelled. -/
def sendAggregatedDispatch (parseDur : String → Option Int)
    (channels : Nat → Option Channel) (send : Channel → Bool → Option String)
    (r : Rule) (alertId : String) (now : Int) (aggLastSent : Option Int)
    (records : List SendRecord) (channelIDs : List Nat) :
    Option Int × List SendRecord :=
  let d := match parseDur r.aggregateWindow with
    | some x => x
    | none => 300
  match aggLastSent with
  | some t =>
    if now - t < d then (aggLastSent, records)
    else
      (some now, dispatchChannels parseDur channels send r alertId now records channelIDs)
  | none =>
    (some now, dispatchChannels parseDur channels send r alertId now records channelIDs)

/-- Go `engine.suppressionConfig`. -/
structure SuppressionConfig where
  sourceLabels : List (String × String)
  suppressedLabels : List (String × String)
  duration : String
deriving DecidableEq

/-- Go `engine.labelsMatch`: every wanted pair present with equal value,
and the wanted set non-empty. -/
def labelsMatch (labels want : List (String × String)) : Bool :=
  want.all (fun p => decide (lookupLabel labels p.1 = p.2)) && decide (want ≠ [])

/-- Go `engine.suppressed`: active suppression window for the rule
(`windowEnd` models `suppressionWindows[r.ID]`, `none` for the zero time)
and the alert labels match `suppressedLabels`. -/
def suppressed (parseSupp : String → Option SuppressionConfig)
    (windowEnd : Option Int) (r : Rule) (labels : List (String × String))
    (now : Int) : Bool :=
  if r.suppression = "" then false
  else
    match parseSupp r.suppression with
    | none => false
    | some cfg =>
      if cfg.suppressedLabels = [] then false
      else
        match windowEnd with
        | none => false
        | some endTime =>
          if now > endTime then false
          else labelsMatch labels cfg.suppressedLabels

/-- Longest digit run at the head of a character list. -/
def takeDigits : List Char → List Char × List Char
  | [] => ([], [])
  | c :: rest =>
    if c.isDigit then
      let p := takeDigits rest
      (c :: p.1, p.2)
    else ([], c :: rest)

/-- Decimal value of a digit run. -/
def digitsToNat (ds : List Char) : Nat :=
  ds.foldl (fun acc c => acc * 10 + (c.toNat - 48)) 0

/-- Model of `fmt.Sscanf` `%d` on a character list: an optional sign followed by at
least one digit; the unconsumed rest is returned. -/
def scanInt (cs : List Char) : Option (Int × List Char) :=
  match cs with
  | '-' :: rest =>
    let p := takeDigits rest
    if p.1 = [] then none else some (-(digitsToNat p.1 : Int), p.2)
  | '+' :: rest =>
    let p := takeDigits rest
    if p.1 = [] then none else some ((digitsToNat p.1 : Int), p.2)
  | _ =>
    let p := takeDigits cs
    if p.1 = [] then none else some ((digitsToNat p.1 : Int), p.2)

/-- Go `engine.parseHM` (`fmt.Sscanf(s, "%d:%d", &h, &m)` plus range
check): minute-of-day for a valid `HH:MM`, `-1` when unparseable or out
of range. -/
def parseHM (s : String) : Int :=
  match scanInt s.toList with
  | none => -1
  | some (h, rest) =>
    match rest with
    | ':' :: rest2 =>
      match scanInt rest2 with
      | none => -1
      | some (m, _) =>
        if h < 0 ∨ h > 23 ∨ m < 0 ∨ m > 59 then -1 else h * 60 + m
    | _ => -1

/-- The per-window test of `engine.inExcludeWindow`'s loop body: windows
with an unparseable endpoint are skipped; `start <= end` is the same-day
interval `[start, end)`; `start > end` wraps midnight. -/
def windowContains (w : String × String) (hm : Int) : Bool :=
  let startMin := parseHM w.1
  let endMin := parseHM w.2
  if startMin < 0 ∨ endMin < 0 then false
  else if startMin ≤ endMin then decide (startMin ≤ hm ∧ hm < endMin)
  else decide (hm ≥ startMin ∨ hm < endMin)

/-- Go `engine.inExcludeWindow`: current local minute-of-day `hm` falls
inside any window of the rule's `excludeWindows` JSON (`parseWindows`
models the `encoding/json` unmarshal into start/end string pairs). -/
def inExcludeWindow (parseWindows : String → Option (List (String × String)))
    (r : Rule) (hm : Int) : Bool :=
  if r.excludeWindows = "" then false
  else
    match parseWindows r.excludeWindows with
    | none => false
    | some ws =>
      if ws = [] then false
      else ws.any (fun w => windowContains w hm)

/-- The firing-alert tail of `engine.ProcessAlert`'s per-rule loop (after
channel resolution and the recovery branch): status, duration,
exclude-window and suppression gates, then aggregated or plain dispatch.
Returns the aggregation last-sent instant, the send records and the alert
row — which this code path never mutates. The Jira ticket side channel
(a separate table) and the rendered message text are not modelled. -/
def processRuleFiring (parseDur : String → Option Int)
    (parseWindows : String → Option (List (String × String)))
    (parseSupp : String → Option SuppressionConfig)
    (channels : Nat → Option Channel) (send : Channel → Bool → Option String)
    (r : Rule) (alert : Alert) (labels : List (String × String)) (hm : Int)
    (suppressionEnd : Option Int) (now : Int) (aggLastSent : Option Int)
    (records : List SendRecord) (channelIDs : List Nat) :
    Option Int × List SendRecord × Alert :=
  if alert.status ≠ "firing" then (aggLastSent, records, alert)
  else if durationSatisfied parseDur r alert now = false then
    (aggLastSent, records, alert)
  else if inExcludeWindow parseWindows r hm then (aggLastSent, records, alert)
  else if suppressed parseSupp suppressionEnd r labels now then
    (aggLastSent, records, alert)
  else if r.aggregationEnabled && decide (r.aggregateBy ≠ "") &&
      decide (r.aggregateWindow ≠ "") then
    let p := sendAggregatedDispatch parseDur channels send r alert.id now
      aggLastSent records channelIDs
    (p.1, p.2, alert)
  else
    (aggLastSent,
      dispatchChannels parseDur channels send r alert.id now records channelIDs,
      alert)

/-! ## Webhook ingress (inbound.GenericHandler.Serve /
inbound.PrometheusHandler.Serve)

Both handlers run the identical firing-status branch: with an existing
firing row for `(sourceId, externalId)` they update it in place, keeping
the id; otherwise they create a fresh row with a new UUID. -/

/-- The `hasFiring` update of the firing branch: the field assignments
`Title`, `Severity`, `FiringAt`, `Labels`, `Annotations` on the row
fetched from the store, followed by `Save`. -/
def webhookFiringUpdate (existing : Alert) (title severity : String)
    (firingAt : Int) (labelsJSON annotationsJSON : String) : Alert :=
  { existing with
      title := title, severity := severity, firingAt := firingAt,
      labels := labelsJSON, annotations := annotationsJSON }

/-- The firing branch of both webhook handlers: update in place when a
firing row exists for `(sourceId, externalId)`, else create a new row. -/
def webhookHandleFiring (existingFiring : Option Alert) (newId : String)
    (sourceId : Nat) (sourceType title severity : String) (firingAt : Int)
    (labelsJSON annotationsJSON externalId : String) : Alert :=
  match existingFiring with
  | some ex => webhookFiringUpdate ex title severity firingAt labelsJSON annotationsJSON
  | none =>
    { id := newId, sourceId := sourceId, sourceType := sourceType,
      externalId := externalId, title := title, severity := severity,
      status := "firing", firingAt := firingAt, resolvedAt := none,
      labels := labelsJSON, annotations := annotationsJSON }

/-- The handlers' `firingAt` derivation: the parsed RFC3339 `startsAt` of
the payload, or the current instant when it is missing or unparseable
(the zero time in Go). -/
def deriveFiringAt (parsedStartsAt : Option Int) (now : Int) : Int :=
  match parsedStartsAt with
  | some t => t
  | none => now

/-! ## Lark token-bucket rate limiter (sender.larkRateLimiter.acquire)

Modelled single-threaded (the Go code drops the mutex across the sleep);
the returned rational is the sleep duration in seconds. -/

structure LarkLimiter where
  tokens : ℚ
  lastTime : ℚ
  rate : ℚ
  burst : ℚ
deriving DecidableEq

/-- Go `sender.larkLimiter`: rate 5 tokens/second, burst 3, initially
full. -/
def larkLimiterInit : LarkLimiter :=
  { tokens := 3, lastTime := 0, rate := 5, burst := 3 }

/-- Go `sender.larkRateLimiter.acquire`: refill by `elapsed * rate`
clamped to `burst`; when the refilled count is below 1, sleep
`(1 - tokens) / rate` seconds and set `tokens = 0`; then decrement —
the decrement is unconditional in the source, so the exhausted branch
ends at `0 - 1`. -/
def acquire (rl : LarkLimiter) (now : ℚ) : LarkLimiter × ℚ :=
  let elapsed := now - rl.lastTime
  let refilled := rl.tokens + elapsed * rl.rate
  let clamped := if refilled > rl.burst then rl.burst else refilled
  if clamped < 1 then
    ({ rl with tokens := 0 - 1, lastTime := now }, (1 - clamped) / rl.rate)
  else
    ({ rl with tokens := clamped - 1, lastTime := now }, 0)

/-- Two permuted string lists have the same `mergeSort`. -/
theorem mergeSort_eq_of_perm {l1 l2 : List String} (h : l1.Perm l2) :
    l1.mergeSort (fun a b => decide (a ≤ b)) =
      l2.mergeSort (fun a b => decide (a ≤ b)) := by
  apply List.eq_of_perm_of_sorted (r := (· ≤ ·))
  · exact (List.mergeSort_perm l1 _).trans (h.trans (List.mergeSort_perm l2 _).symm)
  · exact List.sorted_mergeSort' _
  · exact List.sorted_mergeSort' _

/-- On a list with no duplicate keys, `find?` locates exactly the pair that
is a member. -/
theorem find?_eq_some_of_mem_nodupKeys {l : List (String × String)} {k v : String}
    (hnd : (l.map Prod.fst).Nodup) (hmem : (k, v) ∈ l) :
    l.find? (fun p => decide (p.1 = k)) = some (k, v) := by
  induction l with
  | nil => cases hmem
  | cons a l ih =>
    rcases List.mem_cons.mp hmem with h | h
    · obtain rfl := h.symm
      exact List.find?_cons_of_pos _ (by simp)
    · have hka : a.1 ≠ k := by
        intro hak
        have hk1 : k ∈ l.map Prod.fst := by
          exact List.mem_map.mpr ⟨(k, v), h, rfl⟩
        rw [List.map_cons, List.nodup_cons] at hnd
        exact hnd.1 (hak ▸ hk1)
      rw [List.find?_cons_of_neg _ (by simpa using hka)]
      exact ih (by rw [List.map_cons, List.nodup_cons] at hnd; exact hnd.2) h

/-- A Go map read is invariant under reordering of the (duplicate-free)
pair list. -/
theorem lookupLabel_eq_of_perm {l1 l2 : List (String × String)} (h : l1.Perm l2)
    (hnd : (l1.map Prod.fst).Nodup) (k : String) :
    lookupLabel l1 k = lookupLabel l2 k := by
  have hnd2 : (l2.map Prod.fst).Nodup := ((h.map Prod.fst).nodup_iff).mp hnd
  by_cases hk : ∃ v, (k, v) ∈ l1
  · obtain ⟨v, hv⟩ := hk
    rw [lookupLabel, lookupLabel, find?_eq_some_of_mem_nodupKeys hnd hv,
      find?_eq_some_of_mem_nodupKeys hnd2 (h.mem_iff.mp hv)]
  · push_neg at hk
    have h1 : l1.find? (fun p => decide (p.1 = k)) = none := by
      rw [List.find?_eq_none]
      intro x hx
      simp only [decide_eq_true_eq]
      intro hxk
      exact hk x.2 (by rw [← hxk, Prod.mk.eta]; exact hx)
    have h2 : l2.find? (fun p => decide (p.1 = k)) = none := by
      rw [List.find?_eq_none]
      intro x hx
      simp only [decide_eq_true_eq]
      intro hxk
      exact hk x.2 (by rw [← hxk, Prod.mk.eta]; exact h.mem_iff.mpr hx)
    rw [lookupLabel, lookupLabel, h1, h2]

/-- The canonical JSON serialization depends only on the key-value pairs,
not on their order. -/
theorem canonicalLabelsJSON_eq_of_perm {l1 l2 : List (String × String)}
    (h : l1.Perm l2) (hnd : (l1.map Prod.fst).Nodup) :
    canonicalLabelsJSON l1 = canonicalLabelsJSON l2 := by
  unfold canonicalLabelsJSON
  rw [mergeSort_eq_of_perm (h.map Prod.fst)]
  have hfun : (fun k => jsonQuote k ++ ":" ++ jsonQuote (lookupLabel l1 k)) =
      (fun k => jsonQuote k ++ ":" ++ jsonQuote (lookupLabel l2 k)) :=
    funext fun k => by rw [lookupLabel_eq_of_perm h hnd k]
  rw [hfun]

/-- C5: the fingerprint is the (hex SHA-256) digest of the canonical byte
string `sourceId | ruleId | title | canonicalJSON(labels)`, the
`| resultIndex` suffix is appended exactly when `resultIndex >= 0` and both
`labels["instance"]` and `labels["job"]` are empty, and two label maps with
the same key-value pairs (a permutation of a duplicate-free pair list)
always yield the same digest, for every digest function. -/
theorem C5_fingerprint_canonical (hash : String → String) (sourceID ruleID : Nat)
    (title : String) (labels l1 l2 : List (String × String)) (resultIndex : Int) :
    (KeyForSeriesWithRule hash sourceID ruleID title labels resultIndex =
      hash (keyPayloadWithRule sourceID ruleID title labels resultIndex)) ∧
    (keyPayloadWithRule sourceID ruleID title labels resultIndex =
      toString sourceID ++ "|" ++ toString ruleID ++ "|" ++ title ++ "|" ++
        canonicalLabelsJSON labels ++
        (if resultIndex ≥ 0 ∧ lookupLabel labels "instance" = "" ∧
            lookupLabel labels "job" = "" then
          "|" ++ toString resultIndex
        else "")) ∧
    (l1.Perm l2 → (l1.map Prod.fst).Nodup →
      KeyForSeriesWithRule hash sourceID ruleID title l1 resultIndex =
        KeyForSeriesWithRule hash sourceID ruleID title l2 resultIndex) := by
  refine ⟨rfl, ?_, ?_⟩
  · unfold keyPayloadWithRule
    split
    · rw [String.append_assoc]
    · rw [String.append_empty]
  · intro hperm hnd
    unfold KeyForSeriesWithRule keyPayloadWithRule
    rw [canonicalLabelsJSON_eq_of_perm hperm hnd,
      lookupLabel_eq_of_perm hperm hnd "instance",
      lookupLabel_eq_of_perm hperm hnd "job"]

/-- Witness for C5: two insertion orders of the same two labels yield the
same fingerprint, at a concrete digest function and concrete inputs. -/
theorem C5_fingerprint_canonical_witness :
    KeyForSeriesWithRule (fun s => s) 1 2 "cpu high"
        [("a", "1"), ("b", "2")] 0 =
      KeyForSeriesWithRule (fun s => s) 1 2 "cpu high"
        [("b", "2"), ("a", "1")] 0 :=
  (C5_fingerprint_canonical (fun s => s) 1 2 "cpu high" [] [("a", "1"), ("b", "2")]
      [("b", "2"), ("a", "1")] 0).2.2
    (List.Perm.swap ("b", "2") ("a", "1") []) (by decide)


/-- First-match characterization: `MatchThreshold` returns `some l` exactly
when the levels split as `pre ++ l :: post` with every level in `pre`
failing its comparison and `l` passing it (so `l` sits at the lowest
matching index). -/
theorem matchThreshold_eq_some_iff (levels : List ThresholdLevel) (v : ℚ)
    (l : ThresholdLevel) :
    MatchThreshold levels v = some l ↔
      ∃ pre post, levels = pre ++ l :: post ∧
        opMatched l.operator v l.value = true ∧
        ∀ x ∈ pre, opMatched x.operator v x.value = false := by
  induction levels with
  | nil =>
    simp [MatchThreshold]
  | cons a ls ih =>
    by_cases ha : opMatched a.operator v a.value = true
    · have hstep : MatchThreshold (a :: ls) v = some a := by
        simp [MatchThreshold, ha]
      rw [hstep]
      constructor
      · intro h
        obtain rfl : a = l := Option.some.inj h
        exact ⟨[], ls, by simp, ha, by intro x hx; cases hx⟩
      · rintro ⟨pre, post, hsplit, hl, hpre⟩
        cases pre with
        | nil =>
          simp only [List.nil_append, List.cons.injEq] at hsplit
          exact congrArg some hsplit.1
        | cons p ps =>
          simp only [List.cons_append, List.cons.injEq] at hsplit
          have : opMatched a.operator v a.value = false := by
            have := hpre p (List.mem_cons_self p ps)
            rwa [hsplit.1]
          rw [this] at ha; cases ha
    · have ha' : opMatched a.operator v a.value = false := by
        simpa using ha
      have hstep : MatchThreshold (a :: ls) v = MatchThreshold ls v := by
        simp [MatchThreshold, ha']
      rw [hstep, ih]
      constructor
      · rintro ⟨pre, post, hsplit, hl, hpre⟩
        refine ⟨a :: pre, post, by simp [hsplit], hl, ?_⟩
        intro x hx
        rcases List.mem_cons.mp hx with h | h
        · rw [h]; exact ha'
        · exact hpre x h
      · rintro ⟨pre, post, hsplit, hl, hpre⟩
        cases pre with
        | nil =>
          simp only [List.nil_append, List.cons.injEq] at hsplit
          rw [← hsplit.1] at hl
          rw [hl] at ha'; cases ha'
        | cons p ps =>
          simp only [List.cons_append, List.cons.injEq] at hsplit
          refine ⟨ps, post, hsplit.2, hl, ?_⟩
          intro x hx
          exact hpre x (List.mem_cons_of_mem p hx)

/-- No-match characterization: `MatchThreshold` is `none` exactly when every
level's comparison fails. -/
theorem matchThreshold_eq_none_iff (levels : List ThresholdLevel) (v : ℚ) :
    MatchThreshold levels v = none ↔
      ∀ l ∈ levels, opMatched l.operator v l.value = false := by
  induction levels with
  | nil => simp [MatchThreshold]
  | cons a ls ih =>
    by_cases ha : opMatched a.operator v a.value = true
    · simp [MatchThreshold, ha]
    · have ha' : opMatched a.operator v a.value = false := by simpa using ha
      simp [MatchThreshold, ha', ih]

/-- C3: thresholds are disabled (`ParseThresholds` yields `none`) when the raw
string is empty, `"[]"`, `"null"`, invalid JSON, or an empty list; matching
returns the level at the lowest index whose comparison `v OP value` holds
(every earlier level fails), returns `none` when no level's comparison holds,
and an operator outside the six known ones behaves as `>`. -/
theorem C3_threshold_parse_and_first_match
    (jsonParse : String → Option (List ThresholdLevel)) (raw : String)
    (levels : List ThresholdLevel) (v : ℚ) :
    ((raw = "" ∨ raw = "[]" ∨ raw = "null" ∨ jsonParse raw = none ∨
        jsonParse raw = some []) →
      ParseThresholds jsonParse raw = none) ∧
    (∀ l, MatchThreshold levels v = some l ↔
      ∃ pre post, levels = pre ++ l :: post ∧
        opMatched l.operator v l.value = true ∧
        ∀ x ∈ pre, opMatched x.operator v x.value = false) ∧
    (MatchThreshold levels v = none ↔
      ∀ l ∈ levels, opMatched l.operator v l.value = false) ∧
    (∀ op tv, op ∉ ([">", ">=", "<", "<=", "==", "!="] : List String) →
      opMatched op v tv = decide (v > tv)) := by
  refine ⟨?_, fun l => matchThreshold_eq_some_iff levels v l,
    matchThreshold_eq_none_iff levels v, ?_⟩
  · intro h
    by_cases hre : raw = "" ∨ raw = "[]" ∨ raw = "null"
    · simp [ParseThresholds, hre]
    · rcases h with h | h | h | h | h
      · exact absurd (Or.inl h) hre
      · exact absurd (Or.inr (Or.inl h)) hre
      · exact absurd (Or.inr (Or.inr h)) hre
      · simp [ParseThresholds, hre, h]
      · simp [ParseThresholds, hre, h]
  · intro op tv hop
    simp only [List.mem_cons, List.not_mem_nil, or_false] at hop
    push_neg at hop
    obtain ⟨h1, h2, h3, h4, h5, h6⟩ := hop
    simp [opMatched, h1, h2, h3, h4, h5, h6]


/-- Witness for C3 at concrete inputs: unparseable JSON disables thresholds,
and value 85 against levels `[{>= 90 critical [7]}, {>= 80 warning [3]}]`
matches the second level first-hit. -/
theorem C3_threshold_parse_and_first_match_witness :
    ParseThresholds (fun _ => none) "bad json" = none ∧
    MatchThreshold [⟨">=", 90, "critical", [7]⟩, ⟨">=", 80, "warning", [3]⟩] 85 =
      some ⟨">=", 80, "warning", [3]⟩ := by
  constructor
  · exact (C3_threshold_parse_and_first_match (fun _ => none) "bad json" [] 0).1
      (Or.inr (Or.inr (Or.inr (Or.inl rfl))))
  · exact ((C3_threshold_parse_and_first_match (fun _ => none) "bad json"
        [⟨">=", 90, "critical", [7]⟩, ⟨">=", 80, "warning", [3]⟩] 85).2.1
        ⟨">=", 80, "warning", [3]⟩).mpr
      ⟨[⟨">=", 90, "critical", [7]⟩], [], rfl, by decide, by decide⟩

/-- C2: a firing series resolves only after `resolveGracePeriod = 3`
consecutive absent evaluations: a present key is untouched by the scan and
a processed present series always ends with `missCount = 0` (reappearance
resets the counter); an absent key below the threshold is retained with
`missCount` incremented and no resolution; at the threshold the entry is
deleted and the still-firing row is resolved (`status = "resolved"`,
`resolvedAt = now`) and handed to the notification engine; and every
resolution emitted by the scan arises this way. -/
theorem C2_grace_period_resolution (getAlert : String → Option Alert) (now : Int)
    (currentKeys : List String) (key : String) (st : SchedQueryResult)
    (newValue : ℚ) (newSeverity mintedAlertId : String) (a : Alert) :
    resolveGracePeriod = 3 ∧
    (key ∈ currentKeys → scanEntry getAlert now currentKeys key st = (some st, none)) ∧
    ((observePresent now newValue newSeverity mintedAlertId st).missCount = 0) ∧
    (key ∉ currentKeys → st.missCount + 1 < resolveGracePeriod →
      scanEntry getAlert now currentKeys key st =
        (some { st with missCount := st.missCount + 1 }, none)) ∧
    (key ∉ currentKeys → st.missCount + 1 ≥ resolveGracePeriod → st.alertId ≠ "" →
      getAlert st.alertId = some a → a.status = "firing" →
      scanEntry getAlert now currentKeys key st =
        (none, some { a with status := "resolved", resolvedAt := some now })) ∧
    (∀ a', (scanEntry getAlert now currentKeys key st).2 = some a' →
      key ∉ currentKeys ∧ st.missCount + 1 ≥ resolveGracePeriod ∧
        a'.status = "resolved" ∧ a'.resolvedAt = some now) := by
  refine ⟨rfl, ?_, ?_, ?_, ?_, ?_⟩
  · intro h
    simp [scanEntry, h]
  · unfold observePresent
    dsimp only
    split
    · rfl
    · split
      · rfl
      · omega
  · intro h1 h2
    unfold scanEntry
    dsimp only
    rw [if_neg h1, if_pos h2]
  · intro h1 h2 h3 h4 h5
    unfold scanEntry
    dsimp only
    rw [if_neg h1, if_neg (not_lt.mpr h2), if_pos h3, h4]
    dsimp only
    rw [if_pos h5]
  · intro a'
    unfold scanEntry
    dsimp only
    by_cases h1 : key ∈ currentKeys
    · rw [if_pos h1]
      intro h
      cases h
    · rw [if_neg h1]
      by_cases h2 : st.missCount + 1 < resolveGracePeriod
      · rw [if_pos h2]
        intro h
        cases h
      · rw [if_neg h2]
        by_cases h3 : st.alertId ≠ ""
        · rw [if_pos h3]
          cases hga : getAlert st.alertId with
          | none =>
            intro h
            cases h
          | some b =>
            dsimp only
            by_cases h4 : b.status = "firing"
            · rw [if_pos h4]
              intro h
              obtain rfl := Option.some.inj h
              exact ⟨h1, not_lt.mp h2, rfl, rfl⟩
            · rw [if_neg h4]
              intro h
              cases h
        · rw [if_neg h3]
          intro h
          cases h

/-- Witness for C2 (the grace-period flap scenario S1): with a firing row
in the store, an absent key at `missCount = 0` and `1` is retained without
resolution, at `missCount = 2` the third consecutive absence resolves the
row at `now = 500`, and a reappearing series resets `missCount` to zero. -/
theorem C2_grace_period_resolution_witness :
    scanEntry
        (fun _ => some ⟨"A1", 1, "prometheus", "k", "t", "warning", "firing", 0,
          none, "", ""⟩)
        500 [] "k" ⟨95, 0, "A1", "warning", 0⟩ =
      (some ⟨95, 0, "A1", "warning", 1⟩, none) ∧
    scanEntry
        (fun _ => some ⟨"A1", 1, "prometheus", "k", "t", "warning", "firing", 0,
          none, "", ""⟩)
        500 [] "k" ⟨95, 0, "A1", "warning", 1⟩ =
      (some ⟨95, 0, "A1", "warning", 2⟩, none) ∧
    scanEntry
        (fun _ => some ⟨"A1", 1, "prometheus", "k", "t", "warning", "firing", 0,
          none, "", ""⟩)
        500 [] "k" ⟨95, 0, "A1", "warning", 2⟩ =
      (none, some ⟨"A1", 1, "prometheus", "k", "t", "warning", "resolved", 0,
        some 500, "", ""⟩) ∧
    (observePresent 500 95 "warning" "A1" ⟨95, 0, "A1", "warning", 2⟩).missCount = 0 := by
  refine ⟨?_, ?_, ?_, ?_⟩
  · exact (C2_grace_period_resolution
      (fun _ => some ⟨"A1", 1, "prometheus", "k", "t", "warning", "firing", 0,
        none, "", ""⟩)
      500 [] "k" ⟨95, 0, "A1", "warning", 0⟩ 95 "warning" "A1"
      ⟨"A1", 1, "prometheus", "k", "t", "warning", "firing", 0, none, "", ""⟩).2.2.2.1
      (by decide) (by decide)
  · exact (C2_grace_period_resolution
      (fun _ => some ⟨"A1", 1, "prometheus", "k", "t", "warning", "firing", 0,
        none, "", ""⟩)
      500 [] "k" ⟨95, 0, "A1", "warning", 1⟩ 95 "warning" "A1"
      ⟨"A1", 1, "prometheus", "k", "t", "warning", "firing", 0, none, "", ""⟩).2.2.2.1
      (by decide) (by decide)
  · exact (C2_grace_period_resolution
      (fun _ => some ⟨"A1", 1, "prometheus", "k", "t", "warning", "firing", 0,
        none, "", ""⟩)
      500 [] "k" ⟨95, 0, "A1", "warning", 2⟩ 95 "warning" "A1"
      ⟨"A1", 1, "prometheus", "k", "t", "warning", "firing", 0, none, "", ""⟩).2.2.2.2.1
      (by decide) (by decide) (by decide) rfl rfl
  · exact (C2_grace_period_resolution
      (fun _ => some ⟨"A1", 1, "prometheus", "k", "t", "warning", "firing", 0,
        none, "", ""⟩)
      500 [] "k" ⟨95, 0, "A1", "warning", 2⟩ 95 "warning" "A1"
      ⟨"A1", 1, "prometheus", "k", "t", "warning", "firing", 0, none, "", ""⟩).2.2.1

/-- Characterization of the send rate-limit: with a non-empty, non-`"0"`,
parseable interval, throttled exactly when a successful record for the
pair lies within the interval. -/
theorem sendRateLimited_eq_true_iff (parseDur : String → Option Int)
    (records : List SendRecord) (r : Rule) (now : Int) (alertId : String)
    (chId : Nat) (d : Int) (h1 : r.sendInterval ≠ "") (h2 : r.sendInterval ≠ "0")
    (h3 : parseDur r.sendInterval = some d) :
    sendRateLimited parseDur records r now alertId chId = true ↔
      ∃ rec0 ∈ records, rec0.alertId = alertId ∧ rec0.channelId = chId ∧
        rec0.success = true ∧ rec0.createdAt > now - d := by
  unfold sendRateLimited
  rw [if_neg (by simp [h1, h2]), h3]
  simp [List.countP_pos_iff]

/-- C4: with a positive parseable `sendInterval`, a dispatch is throttled
exactly when a successful send record for `(alertId, channelId)` has
`createdAt` within the interval; a throttled dispatch neither calls the
sender nor appends a record; a non-throttled dispatch instant is at least
the interval after every earlier success for the pair; and records of a
different alert id never influence the decision. -/
theorem C4_send_interval_throttle (parseDur : String → Option Int)
    (records : List SendRecord) (r : Rule) (now : Int) (alertId : String)
    (chId : Nat) (d : Int) (channels : Nat → Option Channel)
    (send : Channel → Bool → Option String) (rec : SendRecord) :
    (r.sendInterval ≠ "" → r.sendInterval ≠ "0" → parseDur r.sendInterval = some d →
      (sendRateLimited parseDur records r now alertId chId = true ↔
        ∃ rec0 ∈ records, rec0.alertId = alertId ∧ rec0.channelId = chId ∧
          rec0.success = true ∧ rec0.createdAt > now - d)) ∧
    (sendRateLimited parseDur records r now alertId chId = true →
      dispatchChannel parseDur channels send r alertId now records chId =
        (records, false)) ∧
    (r.sendInterval ≠ "" → r.sendInterval ≠ "0" → parseDur r.sendInterval = some d →
      sendRateLimited parseDur records r now alertId chId = false →
      ∀ rec0 ∈ records, rec0.alertId = alertId → rec0.channelId = chId →
        rec0.success = true → now - rec0.createdAt ≥ d) ∧
    (rec.alertId ≠ alertId →
      sendRateLimited parseDur (rec :: records) r now alertId chId =
        sendRateLimited parseDur records r now alertId chId) := by
  refine ⟨?_, ?_, ?_, ?_⟩
  · intro h1 h2 h3
    exact sendRateLimited_eq_true_iff parseDur records r now alertId chId d h1 h2 h3
  · intro h
    unfold dispatchChannel
    rw [if_pos h]
  · intro h1 h2 h3 hfalse rec0 hmem ha hc hs
    by_contra hlt
    push_neg at hlt
    have : sendRateLimited parseDur records r now alertId chId = true :=
      (sendRateLimited_eq_true_iff parseDur records r now alertId chId d h1 h2 h3).mpr
        ⟨rec0, hmem, ha, hc, hs, by omega⟩
    rw [this] at hfalse
    cases hfalse
  · intro hne
    unfold sendRateLimited
    by_cases h0 : r.sendInterval = "" ∨ r.sendInterval = "0"
    · rw [if_pos h0, if_pos h0]
    · rw [if_neg h0, if_neg h0]
      cases hp : parseDur r.sendInterval with
      | none => rfl
      | some d' =>
        dsimp only
        rw [List.countP_cons_of_neg _ _ (by simp [hne])]

/-- Witness for C4 (the throttle scenario S3): a success for `("A", 7)` at
time 0 throttles alert `"A"` at time 90 under a 300-second interval and
its dispatch appends nothing, while alert `"B"` is judged independently
of `"A"`'s record. -/
theorem C4_send_interval_throttle_witness :
    sendRateLimited (fun _ => some 300) [⟨"A", 7, true, "", 0⟩]
      ⟨1, "", "5m", "", "", false, false, "", ""⟩ 90 "A" 7 = true ∧
    dispatchChannel (fun _ => some 300) (fun _ => some ⟨"lark", "", true⟩)
      (fun _ _ => none) ⟨1, "", "5m", "", "", false, false, "", ""⟩ "A" 90
      [⟨"A", 7, true, "", 0⟩] 7 = ([⟨"A", 7, true, "", 0⟩], false) ∧
    sendRateLimited (fun _ => some 300) [⟨"A", 7, true, "", 0⟩]
        ⟨1, "", "5m", "", "", false, false, "", ""⟩ 90 "B" 7 =
      sendRateLimited (fun _ => some 300) []
        ⟨1, "", "5m", "", "", false, false, "", ""⟩ 90 "B" 7 := by
  have hA := C4_send_interval_throttle (fun _ => some 300) [⟨"A", 7, true, "", 0⟩]
    ⟨1, "", "5m", "", "", false, false, "", ""⟩ 90 "A" 7 300
    (fun _ => some ⟨"lark", "", true⟩) (fun _ _ => none) ⟨"A", 7, true, "", 0⟩
  have hB := C4_send_interval_throttle (fun _ => some 300) []
    ⟨1, "", "5m", "", "", false, false, "", ""⟩ 90 "B" 7 300
    (fun _ => some ⟨"lark", "", true⟩) (fun _ _ => none) ⟨"A", 7, true, "", 0⟩
  have ht : sendRateLimited (fun _ => some 300) [⟨"A", 7, true, "", 0⟩]
      ⟨1, "", "5m", "", "", false, false, "", ""⟩ 90 "A" 7 = true :=
    (hA.1 (by decide) (by decide) rfl).mpr ⟨⟨"A", 7, true, "", 0⟩, by decide⟩
  exact ⟨ht, hA.2.1 ht, hB.2.2.2 (by decide)⟩

/-- Characterization of the recovery dedup lookback: a successful record
for the pair within the last 2 minutes. -/
theorem recoveryAlreadySent_eq_true_iff (records : List SendRecord) (now : Int)
    (alertId : String) (chId : Nat) :
    recoveryAlreadySent records now alertId chId = true ↔
      ∃ rec0 ∈ records, rec0.alertId = alertId ∧ rec0.channelId = chId ∧
        rec0.success = true ∧ rec0.createdAt > now - 120 := by
  unfold recoveryAlreadySent
  simp [List.countP_pos_iff]

/-- Counterexample to C6 as stated: with no recent success and a missing
channel row, the recovery loop appends no record at all — the claimed
failure send record (which would make the record list a singleton) does
not exist. -/
theorem C6_recovery_counterexample :
    recoveryAlreadySent [] 0 "A" 7 = false ∧
    recoveryDispatchChannel (fun _ => none) (fun _ _ => none) "A" 0 [] 7 =
      ([], false) ∧
    (recoveryDispatchChannel (fun _ => none) (fun _ _ => none) "A" 0 [] 7).1.length ≠ 1 := by
  decide

/-- C6 (amended): in the recovery branch, a channel with a successful send
record in the last 2 minutes is skipped; a missing or disabled channel is
skipped silently, with no send record appended; otherwise the sender is
invoked with `isRecovery = true` and exactly one record is logged —
success, or failure carrying the error text. -/
theorem C6_recovery_dispatch (channels : Nat → Option Channel)
    (send : Channel → Bool → Option String) (alertId : String) (now : Int)
    (records : List SendRecord) (chId : Nat) (ch : Channel) :
    (recoveryAlreadySent records now alertId chId = true ↔
      ∃ rec0 ∈ records, rec0.alertId = alertId ∧ rec0.channelId = chId ∧
        rec0.success = true ∧ rec0.createdAt > now - 120) ∧
    (recoveryAlreadySent records now alertId chId = true →
      recoveryDispatchChannel channels send alertId now records chId =
        (records, false)) ∧
    (recoveryAlreadySent records now alertId chId = false → channels chId = none →
      recoveryDispatchChannel channels send alertId now records chId =
        (records, false)) ∧
    (recoveryAlreadySent records now alertId chId = false → channels chId = some ch →
      ch.enabled = false →
      recoveryDispatchChannel channels send alertId now records chId =
        (records, false)) ∧
    (recoveryAlreadySent records now alertId chId = false → channels chId = some ch →
      ch.enabled = true →
      recoveryDispatchChannel channels send alertId now records chId =
        (records ++ [match send ch true with
          | some errMsg => ⟨alertId, chId, false, errMsg, now⟩
          | none => ⟨alertId, chId, true, "", now⟩], true)) := by
  refine ⟨recoveryAlreadySent_eq_true_iff records now alertId chId, ?_, ?_, ?_, ?_⟩
  · intro h
    unfold recoveryDispatchChannel
    rw [if_pos h]
  · intro h1 h2
    unfold recoveryDispatchChannel
    rw [if_neg (by simp [h1]), h2]
  · intro h1 h2 h3
    unfold recoveryDispatchChannel
    rw [if_neg (by simp [h1]), h2]
    dsimp only
    rw [if_pos h3]
  · intro h1 h2 h3
    unfold recoveryDispatchChannel
    rw [if_neg (by simp [h1]), h2]
    dsimp only
    rw [if_neg (by simp [h3])]
    cases hs : send ch true <;> rfl

/-- Witness for C6 (amended) at concrete inputs: a 30-second-old success
skips the channel; a disabled channel is skipped with no record; an
enabled channel gets the recovery send and a failure record carrying the
error text when the sender fails. -/
theorem C6_recovery_dispatch_witness :
    recoveryDispatchChannel (fun _ => some ⟨"lark", "", true⟩)
      (fun _ _ => some "boom") "A" 100 [⟨"A", 7, true, "", 70⟩] 7 =
      ([⟨"A", 7, true, "", 70⟩], false) ∧
    recoveryDispatchChannel (fun _ => some ⟨"lark", "", false⟩)
      (fun _ _ => some "boom") "A" 100 [] 7 = ([], false) ∧
    recoveryDispatchChannel (fun _ => some ⟨"lark", "", true⟩)
      (fun _ _ => some "boom") "A" 100 [] 7 =
      ([⟨"A", 7, false, "boom", 100⟩], true) := by
  refine ⟨?_, ?_, ?_⟩
  · exact (C6_recovery_dispatch (fun _ => some ⟨"lark", "", true⟩)
      (fun _ _ => some "boom") "A" 100 [⟨"A", 7, true, "", 70⟩] 7
      ⟨"lark", "", true⟩).2.1
      ((C6_recovery_dispatch (fun _ => some ⟨"lark", "", true⟩)
        (fun _ _ => some "boom") "A" 100 [⟨"A", 7, true, "", 70⟩] 7
        ⟨"lark", "", true⟩).1.mpr ⟨⟨"A", 7, true, "", 70⟩, by decide⟩)
  · exact (C6_recovery_dispatch (fun _ => some ⟨"lark", "", false⟩)
      (fun _ _ => some "boom") "A" 100 [] 7 ⟨"lark", "", false⟩).2.2.2.1
      (by decide) rfl rfl
  · exact (C6_recovery_dispatch (fun _ => some ⟨"lark", "", true⟩)
      (fun _ _ => some "boom") "A" 100 [] 7 ⟨"lark", "", true⟩).2.2.2.2
      (by decide) rfl rfl

/-- Counterexample to C7 as stated: with no prior aggregated send and a
single channel whose send fails, no success is recorded, yet the
last-sent instant for the pair is still advanced to `now = 1000`. -/
theorem C7_agg_last_sent_counterexample :
    sendAggregatedDispatch (fun _ => none) (fun _ => some ⟨"lark", "", true⟩)
        (fun _ _ => some "network error")
        ⟨1, "", "", "", "", false, true, "hostname", "5m"⟩ "A" 1000 none [] [7] =
      (some 1000, [⟨"A", 7, false, "network error", 1000⟩]) ∧
    (sendAggregatedDispatch (fun _ => none) (fun _ => some ⟨"lark", "", true⟩)
        (fun _ _ => some "network error")
        ⟨1, "", "", "", "", false, true, "hostname", "5m"⟩ "A" 1000 none [] [7]).1 ≠
      none := by
  decide

/-- C7 (amended): aggregated dispatch for a `(ruleId, typeFingerprint)`
pair is skipped exactly when a last aggregated send instant is recorded
and `now - lastSent < window`; when not skipped, the per-channel loop runs
and the last-sent instant is set to `now` unconditionally — whether or not
any channel send succeeded. -/
theorem C7_aggregation_dedup (parseDur : String → Option Int)
    (channels : Nat → Option Channel) (send : Channel → Bool → Option String)
    (r : Rule) (alertId : String) (now t : Int) (records : List SendRecord)
    (channelIDs : List Nat) (d : Int)
    (hd : (match parseDur r.aggregateWindow with
      | some x => x
      | none => 300) = d) :
    (now - t < d →
      sendAggregatedDispatch parseDur channels send r alertId now (some t)
        records channelIDs = (some t, records)) ∧
    (¬ now - t < d →
      sendAggregatedDispatch parseDur channels send r alertId now (some t)
        records channelIDs =
        (some now,
          dispatchChannels parseDur channels send r alertId now records channelIDs)) ∧
    (sendAggregatedDispatch parseDur channels send r alertId now none
        records channelIDs =
      (some now,
        dispatchChannels parseDur channels send r alertId now records channelIDs)) := by
  refine ⟨?_, ?_, ?_⟩
  · intro h
    unfold sendAggregatedDispatch
    dsimp only
    rw [hd, if_pos h]
  · intro h
    unfold sendAggregatedDispatch
    dsimp only
    rw [hd, if_neg h]
  · rfl

/-- Witness for C7 (amended) at concrete inputs: with a 300-second window,
an aggregated send 100 seconds old suppresses dispatch, one 400 seconds
old does not, and with no recorded instant the dispatch runs and records
`now`. -/
theorem C7_aggregation_dedup_witness :
    sendAggregatedDispatch (fun _ => some 300) (fun _ => some ⟨"lark", "", true⟩)
      (fun _ _ => none) ⟨1, "", "", "", "", false, true, "hostname", "5m"⟩
      "A" 1000 (some 900) [] [7] = (some 900, []) ∧
    sendAggregatedDispatch (fun _ => some 300) (fun _ => some ⟨"lark", "", true⟩)
      (fun _ _ => none) ⟨1, "", "", "", "", false, true, "hostname", "5m"⟩
      "A" 1000 (some 600) [] [7] =
      (some 1000,
        dispatchChannels (fun _ => some 300) (fun _ => some ⟨"lark", "", true⟩)
          (fun _ _ => none) ⟨1, "", "", "", "", false, true, "hostname", "5m"⟩
          "A" 1000 [] [7]) := by
  refine ⟨?_, ?_⟩
  · exact (C7_aggregation_dedup (fun _ => some 300)
      (fun _ => some ⟨"lark", "", true⟩) (fun _ _ => none)
      ⟨1, "", "", "", "", false, true, "hostname", "5m"⟩ "A" 1000 900 [] [7]
      300 rfl).1 (by decide)
  · exact (C7_aggregation_dedup (fun _ => some 300)
      (fun _ => some ⟨"lark", "", true⟩) (fun _ _ => none)
      ⟨1, "", "", "", "", false, true, "hostname", "5m"⟩ "A" 1000 600 [] [7]
      300 rfl).2.1 (by decide)

/-- C9: for a window with both endpoints parsed and in range,
`start <= end` drops exactly when `start <= m < end` (so `start = end`
excludes nothing) and `start > end` wraps midnight, dropping exactly when
`m >= start` or `m < end`; a window with an unparseable or out-of-range
endpoint is ignored; `parseHM` only yields `-1` or a valid minute-of-day;
the rule-level gate fires exactly when some configured window contains
the minute; and a dropped send leaves both the send records and the
persisted alert unchanged. -/
theorem C9_exclude_window_gate (parseDur : String → Option Int)
    (parseWindows : String → Option (List (String × String)))
    (parseSupp : String → Option SuppressionConfig)
    (channels : Nat → Option Channel) (send : Channel → Bool → Option String)
    (r : Rule) (alert : Alert) (labels : List (String × String)) (hm : Int)
    (suppressionEnd : Option Int) (now : Int) (aggLastSent : Option Int)
    (records : List SendRecord) (channelIDs : List Nat)
    (w : String × String) (s : String) :
    (0 ≤ parseHM w.1 → 0 ≤ parseHM w.2 → parseHM w.1 ≤ parseHM w.2 →
      (windowContains w hm = true ↔ parseHM w.1 ≤ hm ∧ hm < parseHM w.2)) ∧
    (0 ≤ parseHM w.1 → 0 ≤ parseHM w.2 → parseHM w.2 < parseHM w.1 →
      (windowContains w hm = true ↔ hm ≥ parseHM w.1 ∨ hm < parseHM w.2)) ∧
    (parseHM w.1 = parseHM w.2 → windowContains w hm = false) ∧
    (parseHM w.1 < 0 ∨ parseHM w.2 < 0 → windowContains w hm = false) ∧
    (parseHM s = -1 ∨ (0 ≤ parseHM s ∧ parseHM s < 1440)) ∧
    (inExcludeWindow parseWindows r hm = true ↔
      r.excludeWindows ≠ "" ∧ ∃ ws, parseWindows r.excludeWindows = some ws ∧
        ∃ w0 ∈ ws, windowContains w0 hm = true) ∧
    (inExcludeWindow parseWindows r hm = true →
      processRuleFiring parseDur parseWindows parseSupp channels send r alert
        labels hm suppressionEnd now aggLastSent records channelIDs =
        (aggLastSent, records, alert)) := by
  refine ⟨?_, ?_, ?_, ?_, ?_, ?_, ?_⟩
  · intro hs he hle
    unfold windowContains
    dsimp only
    rw [if_neg (by omega), if_pos hle]
    simp
  · intro hs he hgt
    unfold windowContains
    dsimp only
    rw [if_neg (by omega), if_neg (by omega)]
    simp
  · intro heq
    unfold windowContains
    dsimp only
    by_cases hneg : parseHM w.1 < 0 ∨ parseHM w.2 < 0
    · rw [if_pos hneg]
    · rw [if_neg hneg, if_pos (by omega)]
      simp only [decide_eq_false_iff_not]
      omega
  · intro h
    unfold windowContains
    dsimp only
    rw [if_pos h]
  · unfold parseHM
    cases hs1 : scanInt s.toList with
    | none =>
      left
      rfl
    | some p =>
      obtain ⟨h, rest⟩ := p
      dsimp only
      split
      · rename_i rest2x rest2
        cases hs2 : scanInt rest2 with
        | none =>
          left
          rfl
        | some q =>
          obtain ⟨m, rest3⟩ := q
          dsimp only
          split
          · left
            rfl
          · rename_i hcond
            right
            push_neg at hcond
            omega
      · left
        rfl
  · unfold inExcludeWindow
    by_cases h0 : r.excludeWindows = ""
    · rw [if_pos h0]
      simp [h0]
    · rw [if_neg h0]
      cases hw : parseWindows r.excludeWindows with
      | none => simp [h0, hw]
      | some ws =>
        by_cases hnil : ws = []
        · subst hnil
          simp [h0, hw]
        · dsimp only
          rw [if_neg hnil]
          simp [h0, hw, List.any_eq_true]
  · intro hwin
    unfold processRuleFiring
    by_cases h1 : alert.status ≠ "firing"
    · rw [if_pos h1]
    · rw [if_neg h1]
      by_cases h2 : durationSatisfied parseDur r alert now = false
      · rw [if_pos h2]
      · rw [if_neg h2, if_pos hwin]

/-- Witness for C9 at concrete inputs: the 22:00-08:00 window wraps
midnight and contains 23:00 (minute 1380); a 10:00-10:00 window excludes
nothing; an unparseable start ignores the window; and a rule whose window
contains the current minute leaves records and alert unchanged. -/
theorem C9_exclude_window_gate_witness :
    windowContains ("22:00", "08:00") 1380 = true ∧
    windowContains ("10:00", "10:00") 1380 = false ∧
    windowContains ("xx", "08:00") 1380 = false ∧
    processRuleFiring (fun _ => none) (fun _ => some [("22:00", "08:00")])
      (fun _ => none) (fun _ => none) (fun _ _ => none)
      ⟨1, "", "", "w", "", false, false, "", ""⟩
      ⟨"A", 1, "p", "e", "t", "warning", "firing", 0, none, "", ""⟩
      [] 1380 none 10 none [] [7] = (none, [],
      ⟨"A", 1, "p", "e", "t", "warning", "firing", 0, none, "", ""⟩) := by
  have hth := C9_exclude_window_gate (fun _ => none)
    (fun _ => some [("22:00", "08:00")]) (fun _ => none) (fun _ => none)
    (fun _ _ => none) ⟨1, "", "", "w", "", false, false, "", ""⟩
    ⟨"A", 1, "p", "e", "t", "warning", "firing", 0, none, "", ""⟩
    [] 1380 none 10 none [] [7] ("22:00", "08:00") "xx"
  have hth2 := C9_exclude_window_gate (fun _ => none)
    (fun _ => some [("22:00", "08:00")]) (fun _ => none) (fun _ => none)
    (fun _ _ => none) ⟨1, "", "", "w", "", false, false, "", ""⟩
    ⟨"A", 1, "p", "e", "t", "warning", "firing", 0, none, "", ""⟩
    [] 1380 none 10 none [] [7] ("10:00", "10:00") "xx"
  have hth3 := C9_exclude_window_gate (fun _ => none)
    (fun _ => some [("22:00", "08:00")]) (fun _ => none) (fun _ => none)
    (fun _ _ => none) ⟨1, "", "", "w", "", false, false, "", ""⟩
    ⟨"A", 1, "p", "e", "t", "warning", "firing", 0, none, "", ""⟩
    [] 1380 none 10 none [] [7] ("xx", "08:00") "xx"
  refine ⟨?_, ?_, ?_, ?_⟩
  · exact (hth.2.1 (by decide) (by decide) (by decide)).mpr (Or.inl (by decide))
  · exact hth2.2.2.1 rfl
  · exact hth3.2.2.2.1 (Or.inl (by decide))
  · exact hth.2.2.2.2.2.2 (by decide)

/-- C10: malformed duration strings fail open at the notification gates —
a non-empty, non-`"0"` but unparseable `duration` satisfies the duration
gate for every alert and instant, and a non-empty, non-`"0"` but
unparseable `sendInterval` disables the send rate-limit, so the dispatch
proceeds to call the sender on an enabled channel instead of being
skipped. -/
theorem C10_malformed_durations_fail_open (parseDur : String → Option Int)
    (r : Rule) (a : Alert) (now : Int) (records : List SendRecord)
    (alertId : String) (chId : Nat) (channels : Nat → Option Channel)
    (send : Channel → Bool → Option String) (ch : Channel) :
    (r.duration ≠ "" → r.duration ≠ "0" → parseDur r.duration = none →
      durationSatisfied parseDur r a now = true) ∧
    (r.sendInterval ≠ "" → r.sendInterval ≠ "0" → parseDur r.sendInterval = none →
      sendRateLimited parseDur records r now alertId chId = false) ∧
    (r.sendInterval ≠ "" → r.sendInterval ≠ "0" → parseDur r.sendInterval = none →
      channels chId = some ch → ch.enabled = true →
      (dispatchChannel parseDur channels send r alertId now records chId).2 = true) := by
  refine ⟨?_, ?_, ?_⟩
  · intro h1 h2 h3
    unfold durationSatisfied
    rw [if_neg (by simp [h1, h2]), h3]
  · intro h1 h2 h3
    unfold sendRateLimited
    rw [if_neg (by simp [h1, h2]), h3]
  · intro h1 h2 h3 hch hen
    have hrl : sendRateLimited parseDur records r now alertId chId = false := by
      unfold sendRateLimited
      rw [if_neg (by simp [h1, h2]), h3]
    unfold dispatchChannel
    rw [if_neg (by simp [hrl]), hch]
    dsimp only
    rw [if_neg (by simp [hen])]
    cases hs : send ch false <;> rfl

/-- Witness for C10 at concrete inputs: with `duration = sendInterval =
"bogus"` failing to parse, the duration gate passes an alert firing for
only 10 seconds, no dispatch is throttled, and the sender is invoked. -/
theorem C10_malformed_durations_fail_open_witness :
    durationSatisfied (fun _ => none)
      ⟨1, "bogus", "bogus", "", "", false, false, "", ""⟩
      ⟨"A", 1, "p", "e", "t", "warning", "firing", 0, none, "", ""⟩ 10 = true ∧
    sendRateLimited (fun _ => none) []
      ⟨1, "bogus", "bogus", "", "", false, false, "", ""⟩ 10 "A" 7 = false ∧
    (dispatchChannel (fun _ => none) (fun _ => some ⟨"lark", "", true⟩)
      (fun _ _ => none) ⟨1, "bogus", "bogus", "", "", false, false, "", ""⟩
      "A" 10 [] 7).2 = true := by
  have hth := C10_malformed_durations_fail_open (fun _ => none)
    ⟨1, "bogus", "bogus", "", "", false, false, "", ""⟩
    ⟨"A", 1, "p", "e", "t", "warning", "firing", 0, none, "", ""⟩ 10 [] "A" 7
    (fun _ => some ⟨"lark", "", true⟩) (fun _ _ => none) ⟨"lark", "", true⟩
  exact ⟨hth.1 (by decide) (by decide) rfl, hth.2.1 (by decide) (by decide) rfl,
    hth.2.2 (by decide) (by decide) rfl rfl rfl⟩

/-- Counterexample to C8 as stated: with the bucket empty and no elapsed
time, the exhausted-branch acquire sleeps `(1 - 0)/5` seconds but leaves
the token count at `-1`, not `0` — the decrement in the source runs
unconditionally after the sleep branch sets the count to zero. -/
theorem C8_rate_limiter_counterexample :
    (acquire ⟨0, 0, 5, 3⟩ 0).2 = 1 / 5 ∧
    (acquire ⟨0, 0, 5, 3⟩ 0).1.tokens = -1 ∧
    (acquire ⟨0, 0, 5, 3⟩ 0).1.tokens ≠ 0 := by
  refine ⟨?_, ?_, ?_⟩ <;> norm_num [acquire]

/-- C8 (amended): `acquire` refills by `elapsed * rate` clamped to `burst`
(the limiter is created with rate 5, burst 3, a full bucket); when the
refilled count is below 1 the caller sleeps `(1 - tokens)/rate` seconds
and, because the decrement is unconditional, ends at `-1` tokens;
otherwise there is no sleep and the count ends at the refilled value
minus one; `lastTime` advances to `now` in both branches. -/
theorem C8_rate_limiter_token_bucket (rl : LarkLimiter) (now clamped : ℚ)
    (hcl : clamped =
      (if rl.tokens + (now - rl.lastTime) * rl.rate > rl.burst then rl.burst
       else rl.tokens + (now - rl.lastTime) * rl.rate)) :
    larkLimiterInit.rate = 5 ∧ larkLimiterInit.burst = 3 ∧
    larkLimiterInit.tokens = larkLimiterInit.burst ∧
    clamped ≤ rl.burst ∧
    (clamped < 1 →
      (acquire rl now).1.tokens = -1 ∧ (acquire rl now).1.lastTime = now ∧
        (acquire rl now).2 = (1 - clamped) / rl.rate) ∧
    (1 ≤ clamped →
      (acquire rl now).1.tokens = clamped - 1 ∧ (acquire rl now).1.lastTime = now ∧
        (acquire rl now).2 = 0) := by
  refine ⟨rfl, rfl, rfl, ?_, ?_, ?_⟩
  · rw [hcl]
    split
    · exact le_refl _
    · next h => exact not_lt.mp h
  · intro h
    unfold acquire
    dsimp only
    rw [← hcl, if_pos h]
    exact ⟨by norm_num, rfl, rfl⟩
  · intro h
    unfold acquire
    dsimp only
    rw [← hcl, if_neg (not_lt.mpr h)]
    exact ⟨rfl, rfl, rfl⟩

/-- Witness for C8 (amended) at concrete inputs: an empty bucket acquire
ends at `-1` tokens after a `1/5` second sleep; a full-bucket acquire ends
at `3 - 1` tokens with no sleep. -/
theorem C8_rate_limiter_token_bucket_witness :
    (acquire ⟨0, 0, 5, 3⟩ 0).1.tokens = -1 ∧
    (acquire ⟨0, 0, 5, 3⟩ 0).2 = (1 - 0) / 5 ∧
    (acquire ⟨3, 0, 5, 3⟩ 0).1.tokens = 3 - 1 ∧
    (acquire ⟨3, 0, 5, 3⟩ 0).2 = 0 := by
  have h1 := C8_rate_limiter_token_bucket ⟨0, 0, 5, 3⟩ 0 0 (by norm_num)
  have h2 := C8_rate_limiter_token_bucket ⟨3, 0, 5, 3⟩ 0 3 (by norm_num)
  exact ⟨(h1.2.2.2.2.1 (by norm_num)).1, (h1.2.2.2.2.1 (by norm_num)).2.2,
    (h2.2.2.2.2.2 (by norm_num)).1, (h2.2.2.2.2.2 (by norm_num)).2.2⟩

/-- Counterexample to C1 as stated: a repeat firing payload whose derived
`firingAt` (from its `startsAt`, here 200) differs from the stored row's
`firingAt` (100) overwrites it — `firingAt` is not preserved by the
webhook firing-update branch. -/
theorem C1_webhook_counterexample :
    (webhookHandleFiring
        (some ⟨"A", 1, "prometheus", "ext", "old", "warning", "firing", 100,
          none, "L0", "N0"⟩)
        "new-id" 1 "prometheus" "new" "critical" 200 "L1" "N1" "ext").firingAt = 200 ∧
    (webhookHandleFiring
        (some ⟨"A", 1, "prometheus", "ext", "old", "warning", "firing", 100,
          none, "L0", "N0"⟩)
        "new-id" 1 "prometheus" "new" "critical" 200 "L1" "N1" "ext").firingAt ≠ 100 := by
  decide

/-- C1 (amended): when a firing row exists for `(sourceId, externalId)`,
both webhook handlers update it in place — `id`, `status`, `sourceId`,
`sourceType`, `externalId` and `resolvedAt` are preserved, while `title`,
`severity`, `labels`, `annotations` and `firingAt` are all replaced by the
values derived from the latest payload, `firingAt` coming from the parsed
`startsAt` with the current instant as fallback. -/
theorem C1_webhook_firing_update (ex : Alert) (newId : String) (sourceId : Nat)
    (sourceType title severity : String) (firingAt : Int)
    (labelsJSON annotationsJSON externalId : String) (t now : Int) :
    (webhookHandleFiring (some ex) newId sourceId sourceType title severity
        firingAt labelsJSON annotationsJSON externalId).id = ex.id ∧
    (webhookHandleFiring (some ex) newId sourceId sourceType title severity
        firingAt labelsJSON annotationsJSON externalId).status = ex.status ∧
    (webhookHandleFiring (some ex) newId sourceId sourceType title severity
        firingAt labelsJSON annotationsJSON externalId).sourceId = ex.sourceId ∧
    (webhookHandleFiring (some ex) newId sourceId sourceType title severity
        firingAt labelsJSON annotationsJSON externalId).sourceType = ex.sourceType ∧
    (webhookHandleFiring (some ex) newId sourceId sourceType title severity
        firingAt labelsJSON annotationsJSON externalId).externalId = ex.externalId ∧
    (webhookHandleFiring (some ex) newId sourceId sourceType title severity
        firingAt labelsJSON annotationsJSON externalId).resolvedAt = ex.resolvedAt ∧
    (webhookHandleFiring (some ex) newId sourceId sourceType title severity
        firingAt labelsJSON annotationsJSON externalId).title = title ∧
    (webhookHandleFiring (some ex) newId sourceId sourceType title severity
        firingAt labelsJSON annotationsJSON externalId).severity = severity ∧
    (webhookHandleFiring (some ex) newId sourceId sourceType title severity
        firingAt labelsJSON annotationsJSON externalId).labels = labelsJSON ∧
    (webhookHandleFiring (some ex) newId sourceId sourceType title severity
        firingAt labelsJSON annotationsJSON externalId).annotations = annotationsJSON ∧
    (webhookHandleFiring (some ex) newId sourceId sourceType title severity
        firingAt labelsJSON annotationsJSON externalId).firingAt = firingAt ∧
    deriveFiringAt (some t) now = t ∧
    deriveFiringAt none now = now :=
  ⟨rfl, rfl, rfl, rfl, rfl, rfl, rfl, rfl, rfl, rfl, rfl, rfl, rfl⟩

end KKAlert
